import Mathlib

/-!
Verification of the identity and access core of the fastgo API server:
credential hashing (`pkg/auth` over `x/crypto/bcrypt`), opaque resource
identifiers (`internal/pkg/rid`), server options and their validation
(`cmd/fg-apiserver/app/options`), the token issuer/verifier and the
authentication gate (`pkg/token`, `internal/pkg/middleware`), and the route
table installed by `Config.InstallRESTAPI` (`internal/apiserver/server.go`).

Go machine types are embedded as `Nat`/`Int`/`String`; `time.Duration`
values are nanosecond counts. Process-wide secrets drawn at start-up (the
bcrypt per-call entropy, the rid salt) are passed as explicit parameters.
-/

namespace FastGo

/-! ## Credential hasher (`pkg/auth`, over a model of `x/crypto/bcrypt`) -/

/-- The single failure the hasher can report on verification:
`bcrypt.ErrMismatchedHashAndPassword`. -/
inductive HashError where
  | mismatch : HashError
deriving DecidableEq

/-- Modelled from the spec: the bcrypt key-derivation step as a keyed
transformation of the plaintext — deterministic given the salt and the
plaintext, and collision-free in the plaintext for a fixed salt (the spec's
hasher contract: verification "recomputes and compares" a fresh hash of the
candidate, succeeding exactly on the original plaintext). The bcrypt
internals are not part of this repository. -/
def bcryptKey (salt : Nat) (p : String) : List Nat :=
  p.data.map (fun c => c.toNat + salt)

/-- A bcrypt digest: the salt is stored alongside the derived key so
verification can re-run the derivation (bcrypt's `$2a$cost$saltkey` layout). -/
structure BcryptDigest where
  salt : Nat
  key : List Nat
deriving DecidableEq

/-- Modelled from the spec: `bcrypt.GenerateFromPassword` draws a fresh
random salt from the entropy source on every call; the entropy is made an
explicit argument here. -/
def generateFromPassword (entropy : Nat) (password : String) : BcryptDigest :=
  { salt := entropy, key := bcryptKey entropy password }

/-- Modelled from the spec: `bcrypt.CompareHashAndPassword` re-derives the
key from the digest's stored salt and the candidate plaintext and compares. -/
def compareHashAndPassword (hashed : BcryptDigest) (password : String) :
    Except HashError Unit :=
  if hashed.key = bcryptKey hashed.salt password then .ok () else .error .mismatch

/-- `auth.Encrypt`: hash the plaintext with `bcrypt.GenerateFromPassword`
(the Go code passes `bcrypt.DefaultCost`; the cost does not affect the
functional contract and is omitted). -/
def Encrypt (entropy : Nat) (source : String) : BcryptDigest :=
  generateFromPassword entropy source

/-- `auth.Compare`: verify a plaintext against a stored digest via
`bcrypt.CompareHashAndPassword`. -/
def Compare (hashedPassword : BcryptDigest) (password : String) :
    Except HashError Unit :=
  compareHashAndPassword hashedPassword password

/-- Error taxonomy visible at the API boundary (spec §7). -/
inductive ApiError where
  | invalidCredentials : ApiError
  | unauthorized : ApiError
deriving DecidableEq

/-- Modelled from the spec: the login boundary maps the hasher's internal
`MismatchError` to `InvalidCredentials`; the login handler itself is not
part of the sources. -/
def loginBoundaryMap : HashError → ApiError
  | .mismatch => .invalidCredentials

/-! ## Opaque resource identifiers (`internal/pkg/rid`) -/

/-- The fixed alphabet from `internal/pkg/rid`. -/
def defaultABC : String :=
  "abcedfghijklmnopqrstuvwxyzABCDEFGHIJKLMNOPQRSTUVWXYZ0123456789"

/-- Modelled from the spec: the fixed-length base-`|chars|` digit expansion
used by the external `id.NewCode` package (least-significant digit first). -/
def encodeCode (chars : List Char) : Nat → Nat → List Char
  | 0, _ => []
  | len + 1, n =>
    chars.getD (n % chars.length) ' ' :: encodeCode chars len (n / chars.length)

/-- Modelled from the spec: `id.NewCode` — "encodes `counter` using a keyed
transformation seeded by the process-wide salt and a fixed alphabet,
producing a fixed-length code". The counter is mixed with the salt and
written out as exactly `codeLen` digits over `chars`. The `id` package is
external to this repository. -/
def NewCode (counter : Nat) (chars : List Char) (codeLen : Nat) (salt : Nat) :
    String :=
  String.mk (encodeCode chars codeLen ((counter + salt) % chars.length ^ codeLen))

/-- `rid.ResourceID`: a string-typed resource kind. -/
structure ResourceID where
  val : String
deriving DecidableEq

/-- `rid.UserID`. -/
def UserID : ResourceID := ⟨"user"⟩

/-- `rid.PostID`. -/
def PostID : ResourceID := ⟨"post"⟩

/-- `ResourceID.String()`. -/
def ResourceID.toStringVal (rid : ResourceID) : String := rid.val

/-- `ResourceID.New`: prefix + "-" + 6-character code over `defaultABC`,
salted with the process-wide salt (`Salt()` in the source; explicit here). -/
def ResourceID.New (rid : ResourceID) (salt : Nat) (counter : Nat) : String :=
  rid.toStringVal ++ "-" ++ NewCode counter defaultABC.data 6 salt

/-! ## Token issuer / verifier (`pkg/token`, modelled from the spec) -/

/-- Session claims carried inside a signed token (spec §3). -/
structure SessionClaims where
  subject : String
  issuedAt : Nat
  expiry : Nat
deriving DecidableEq

/-- The token package's process-wide configuration set by `token.Init`. -/
structure TokenConfig where
  key : String
  identityKey : String
  expiration : Nat
deriving DecidableEq

/-- Modelled from the spec: `known.XUserID`, the claim name carrying the
user identity (its concrete value is immaterial to the claims proved here). -/
def XUserID : String := "x-user-id"

/-- Nanoseconds per second (`time.Duration` granularity). -/
def nsPerSecond : Nat := 1000000000

/-- Nanoseconds per hour: `time.Hour`. -/
def nsPerHour : Nat := 3600 * nsPerSecond

/-- Modelled from the spec: the symmetric signature over the serialized
claims — a deterministic keyed checksum standing in for HMAC. -/
def signClaims (key : String) (c : SessionClaims) : Nat :=
  1 + (key.data.map Char.toNat).sum * 31 + (c.subject.data.map Char.toNat).sum * 17
    + c.issuedAt * 7 + c.expiry * 3

/-- A token as presented by a client: either structurally malformed (fails
deserialization) or a claims payload with an attached signature. -/
inductive PresentedToken where
  | malformed : PresentedToken
  | wellFormed : SessionClaims → Nat → PresentedToken
deriving DecidableEq

/-- The three parse failure kinds (spec §4.3 / §7). -/
inductive ParseError where
  | malformedToken : ParseError
  | invalidSignature : ParseError
  | expired : ParseError
deriving DecidableEq

/-- Modelled from the spec: `token.Parse` — deserializes, then verifies the
signature against the configured key, then checks `now < expiry`; the three
failures are produced in exactly that order. -/
def parseToken (cfg : TokenConfig) (now : Nat) :
    PresentedToken → Except ParseError SessionClaims
  | .malformed => .error .malformedToken
  | .wellFormed claims sig =>
    if sig = signClaims cfg.key claims then
      if now < claims.expiry then .ok claims else .error .expired
    else .error .invalidSignature

/-- Modelled from the spec: `token.Sign`/`issue` — builds claims with
`issued-at = now`, `expiry = now + lifetime`, signs with the configured key;
returns the token and its expiry timestamp. -/
def issueToken (cfg : TokenConfig) (subject : String) (now : Nat) :
    PresentedToken × Nat :=
  let claims : SessionClaims :=
    { subject := subject, issuedAt := now, expiry := now + cfg.expiration }
  (.wellFormed claims (signClaims cfg.key claims), claims.expiry)

/-! ## Server options (`cmd/fg-apiserver/app/options`, `pkg/options`) -/

/-- `genericoptions.MySQLOptions`. Durations are nanoseconds. -/
structure MySQLOptions where
  Addr : String
  Username : String
  Password : String
  Database : String
  MaxIdleConnections : Int
  MaxOpenConnections : Int
  MaxConnectionLifeTime : Int
deriving DecidableEq

/-- `genericoptions.NewMySQLOptions`: the default MySQL options. -/
def NewMySQLOptions : MySQLOptions :=
  { Addr := "127.0.0.1:3306"
    Username := "onex"
    Password := "onex(#)666"
    Database := "onex"
    MaxIdleConnections := 100
    MaxOpenConnections := 100
    MaxConnectionLifeTime := 10 * 1000000000 }

/-- `options.ServerOptions` (the variant with `Addr`, `JWTKey`,
`Expiration`). -/
structure ServerOptions where
  MYSQLOptions : MySQLOptions
  Addr : String
  JWTKey : String
  Expiration : Nat
deriving DecidableEq

/-- `options.NewServerOptions`: defaults. `JWTKey` is not assigned in the
Go composite literal, so it keeps the string zero value `""`. -/
def NewServerOptions : ServerOptions :=
  { MYSQLOptions := NewMySQLOptions
    Addr := "0.0.0.0:6666"
    JWTKey := ""
    Expiration := 2 * nsPerHour }

/-- Split a character list into the colon-separated groups. -/
def splitCols : List Char → List (List Char)
  | [] => [[]]
  | c :: cs =>
    let rest := splitCols cs
    if c = ':' then [] :: rest
    else
      match rest with
      | [] => [[c]]
      | g :: gs => (c :: g) :: gs

/-- Model of `net.SplitHostPort` restricted to bracket-free addresses:
exactly one colon splits host from port; zero colons ("missing port") or
several ("too many colons") are errors. All addresses validated here are
bracket-free IPv4-style strings. -/
def splitHostPort (s : String) : Option (String × String) :=
  match splitCols s.data with
  | [host, port] => some (String.mk host, String.mk port)
  | _ => none

/-- Decimal digit run parser used by the `strconv.Atoi` model. -/
def parseNatDigits (cs : List Char) : Option Nat :=
  match cs with
  | [] => none
  | _ =>
    cs.foldl
      (fun acc c => acc.bind (fun n =>
        if c.isDigit then some (n * 10 + (c.toNat - '0'.toNat)) else none))
      (some 0)

/-- Model of `strconv.Atoi`: an optionally signed decimal integer. -/
def atoi (s : String) : Option Int :=
  match s.data with
  | '-' :: cs => (parseNatDigits cs).map (fun n => -(n : Int))
  | '+' :: cs => (parseNatDigits cs).map (fun n => (n : Int))
  | cs => (parseNatDigits cs).map (fun n => (n : Int))

/-- Host part of `net.SplitHostPort` with the error case defaulted (only
read after the error check has passed, mirroring Go's `host, portStr, err`
multi-assignment). -/
def hostOf (s : String) : String := ((splitHostPort s).getD ("", "")).1

/-- Port-string part of `net.SplitHostPort` with the error case defaulted. -/
def portStrOf (s : String) : String := ((splitHostPort s).getD ("", "")).2

/-- `ServerOptions.Validate`: each check in source order; the returned
string is the error message of the branch that fired. Go's
`err != nil || port < 1 || port > 65535` composite conditions are kept as
single disjunctive checks, as in the source. -/
def ServerOptions.Validate (o : ServerOptions) : Except String Unit :=
  if o.MYSQLOptions.Addr = "" then
    .error "MYSQL server address cannot be empty"
  else if (splitHostPort o.MYSQLOptions.Addr).isNone then
    .error "invalid MySQL address format"
  else if (atoi (portStrOf o.MYSQLOptions.Addr)).isNone
      ∨ (atoi (portStrOf o.MYSQLOptions.Addr)).getD 0 < 1
      ∨ (atoi (portStrOf o.MYSQLOptions.Addr)).getD 0 > 65535 then
    .error "invalid MySQL port"
  else if hostOf o.MYSQLOptions.Addr = "" then
    .error "MYSQL hostname cannot be empty"
  else if o.MYSQLOptions.Username = "" then
    .error "MySQL username cannot be empty"
  else if o.MYSQLOptions.Password = "" then
    .error "MySQL password cannot be empty"
  else if o.MYSQLOptions.Database = "" then
    .error "MySQL database name cannot be empty"
  else if o.MYSQLOptions.MaxIdleConnections ≤ 0 then
    .error "MySQL max idle connections must be greater than 0"
  else if o.MYSQLOptions.MaxOpenConnections ≤ 0 then
    .error "MySQL max open connections must be greater than 0"
  else if o.MYSQLOptions.MaxIdleConnections > o.MYSQLOptions.MaxOpenConnections then
    .error "MySQL max idle connections cannot be greater than max open connections"
  else if o.MYSQLOptions.MaxConnectionLifeTime ≤ 0 then
    .error "MySQL max connection lifetime must be greater than 0"
  else if o.Addr = "" then
    .error "server address cannot be empty"
  else if (splitHostPort o.Addr).isNone then
    .error "invalid server address format"
  else if (atoi (portStrOf o.Addr)).isNone
      ∨ (atoi (portStrOf o.Addr)).getD 0 < 1
      ∨ (atoi (portStrOf o.Addr)).getD 0 > 65535 then
    .error "invalid server port"
  else if o.JWTKey.length < 6 then
    .error "JWTKey must be at least 6 characters long"
  else .ok ()

/-- `apiserver.Config`, as built by `ServerOptions.Config()`. -/
structure Config where
  MySQLOpts : MySQLOptions
  Addr : String
  JWTKey : String
  Expiration : Nat
deriving DecidableEq

/-- `ServerOptions.Config()`: copies the options into the apiserver config. -/
def ServerOptions.Config (o : ServerOptions) : Config :=
  { MySQLOpts := o.MYSQLOptions
    Addr := o.Addr
    JWTKey := o.JWTKey
    Expiration := o.Expiration }

/-- The `token.Init(cfg.JWTKey, known.XUserID, cfg.Expiration)` call made by
`Config.NewServer`: the token configuration the process serves with. -/
def Config.tokenInit (cfg : Config) : TokenConfig :=
  { key := cfg.JWTKey, identityKey := XUserID, expiration := cfg.Expiration }

/-! ## Route table (`Config.InstallRESTAPI` in `internal/apiserver/server.go`) -/

/-- The middleware functions appearing in `server.go` (`gin.Recovery`,
`mw.NoCache`, `mw.Cors`, `mw.RequestID`, `mw.Authn`). -/
inductive Middleware where
  | recovery : Middleware
  | noCache : Middleware
  | cors : Middleware
  | requestID : Middleware
  | authn : Middleware
deriving DecidableEq

/-- HTTP methods used by the route table. -/
inductive Method where
  | GET : Method
  | POST : Method
  | PUT : Method
  | DELETE : Method
deriving DecidableEq

/-- The terminal handlers registered in `InstallRESTAPI` (the `NoRoute`
fallback is not a route and is not listed). -/
inductive HandlerTag where
  | healthz : HandlerTag
  | login : HandlerTag
  | refreshToken : HandlerTag
  | createUser : HandlerTag
  | changePassword : HandlerTag
  | updateUser : HandlerTag
  | deleteUser : HandlerTag
  | getUser : HandlerTag
  | listUser : HandlerTag
  | createPost : HandlerTag
  | updatePost : HandlerTag
  | deletePost : HandlerTag
  | getPost : HandlerTag
  | listPost : HandlerTag
deriving DecidableEq

/-- A registered route: method, absolute path, the middleware chain in
effect at registration time, and the terminal handler. -/
structure Route where
  method : Method
  path : String
  middlewares : List Middleware
  handler : HandlerTag
deriving DecidableEq

/-- A gin router group: accumulated base path and middleware chain. -/
structure RouterGroup where
  basePath : String
  handlers : List Middleware
deriving DecidableEq

/-- gin's path join for the inputs occurring in `server.go`: an empty
relative path keeps the absolute path; a relative path is appended with a
single separating slash. -/
def joinPath (absolute rel : String) : String :=
  match rel.data with
  | [] => absolute
  | c :: _ => if c = '/' then absolute ++ rel else absolute ++ "/" ++ rel

/-- `group.Group(rel, mws...)`: derives a child group. -/
def RouterGroup.child (g : RouterGroup) (rel : String) (mws : List Middleware) :
    RouterGroup :=
  { basePath := joinPath g.basePath rel, handlers := g.handlers ++ mws }

/-- `group.Use(mws...)`: appends middlewares to the group chain; routes
registered afterwards inherit them. -/
def RouterGroup.useMws (g : RouterGroup) (mws : List Middleware) : RouterGroup :=
  { g with handlers := g.handlers ++ mws }

/-- `group.METHOD(rel, extra..., handler)`: registers a route whose chain is
the group chain plus the per-route middlewares. -/
def RouterGroup.handle (g : RouterGroup) (m : Method) (rel : String)
    (extra : List Middleware) (h : HandlerTag) : Route :=
  { method := m, path := joinPath g.basePath rel,
    middlewares := g.handlers ++ extra, handler := h }

/-- `Config.InstallRESTAPI`, registration for registration: global
middlewares, `/healthz`, `/login`, `/refresh-token` (Authn before the
handler), the `/v1/users` group (create registered before `Use(Authn)`,
the rest after), and the `/v1/posts` group created with Authn. -/
def installRESTAPI : List Route :=
  let engine : RouterGroup :=
    { basePath := "",
      handlers := [.recovery, .noCache, .cors, .requestID] }
  let healthzR := engine.handle .GET "/healthz" [] .healthz
  let loginR := engine.handle .POST "/login" [] .login
  let refreshR := engine.handle .PUT "/refresh-token" [.authn] .refreshToken
  let authMiddlewares : List Middleware := [.authn]
  let v1 := engine.child "/v1" []
  let userv1 := v1.child "/users" []
  let createUserR := userv1.handle .POST "" [] .createUser
  let userv1A := userv1.useMws authMiddlewares
  let changePasswordR := userv1A.handle .PUT ":userID/change-password" [] .changePassword
  let updateUserR := userv1A.handle .PUT ":userID" [] .updateUser
  let deleteUserR := userv1A.handle .DELETE ":userID" [] .deleteUser
  let getUserR := userv1A.handle .GET ":userID" [] .getUser
  let listUserR := userv1A.handle .GET "" [] .listUser
  let postv1 := v1.child "/posts" authMiddlewares
  let createPostR := postv1.handle .POST "" [] .createPost
  let updatePostR := postv1.handle .PUT ":postID" [] .updatePost
  let deletePostR := postv1.handle .DELETE "" [] .deletePost
  let getPostR := postv1.handle .GET ":postID" [] .getPost
  let listPostR := postv1.handle .GET "" [] .listPost
  [healthzR, loginR, refreshR, createUserR, changePasswordR, updateUserR,
   deleteUserR, getUserR, listUserR, createPostR, updatePostR, deletePostR,
   getPostR, listPostR]

/-! ## Authentication gate and the refresh pipeline (modelled from the spec) -/

/-- Modelled from the spec: the Authn middleware — calls `parse` on the
presented token; on success yields the resolved subject for the request
context, on any parse failure short-circuits with Unauthorized. -/
def authnGate (cfg : TokenConfig) (now : Nat) (t : PresentedToken) :
    Except ApiError String :=
  match parseToken cfg now t with
  | .ok claims => .ok claims.subject
  | .error _ => .error .unauthorized

/-- Outcome of running the `/refresh-token` pipeline: the response and
whether the wrapped refresh handler was invoked. -/
structure RefreshOutcome where
  unauthorized : Bool
  refreshInvoked : Bool
  newToken : Option (PresentedToken × Nat)
deriving DecidableEq

/-- Modelled from the spec: the `PUT /refresh-token` pipeline — the Authn
gate runs first; only when it admits the request does the refresh handler
run, re-issuing a token for the gate-resolved subject. -/
def runRefreshRoute (cfg : TokenConfig) (now : Nat) (t : PresentedToken) :
    RefreshOutcome :=
  match authnGate cfg now t with
  | .error _ =>
    { unauthorized := true, refreshInvoked := false, newToken := none }
  | .ok subject =>
    { unauthorized := false, refreshInvoked := true,
      newToken := some (issueToken cfg subject now) }

/-! ## Helper lemmas -/

/-- The bcrypt key derivation is injective in the plaintext for a fixed
salt: verification "recomputes and compares", so only the original
plaintext reproduces the stored key. -/
theorem bcryptKey_inj (salt : Nat) {p1 p2 : String}
    (h : bcryptKey salt p1 = bcryptKey salt p2) : p1 = p2 := by
  unfold bcryptKey at h
  have hf : Function.Injective (fun c : Char => c.toNat + salt) := by
    intro a b hab
    exact Char.eq_of_val_eq (UInt32.ext (Nat.add_right_cancel hab))
  exact congrArg String.mk (List.map_injective_iff.mpr hf h)

/-- Verification succeeds on the very plaintext that produced the digest. -/
theorem compareHash_roundtrip (e : Nat) (p : String) :
    compareHashAndPassword (generateFromPassword e p) p = .ok () := by
  simp [compareHashAndPassword, generateFromPassword]

/-! ## Claim theorems -/

/-- C1: for every plaintext password `p` (and whatever entropy the hashing
call drew), verifying `p` against the digest produced by hashing `p`
succeeds: `Compare (Encrypt p) p` returns no error. -/
theorem C1_compare_encrypt_succeeds (entropy : Nat) (p : String) :
    Compare (Encrypt entropy p) p = .ok () := by
  simpa [Compare, Encrypt] using compareHash_roundtrip entropy p

/-- C2: for every pair of distinct plaintexts `p1 ≠ p2`, verifying `p2`
against the digest of `p1` fails with the hasher's mismatch error, and that
error is mapped to `InvalidCredentials` at the API boundary. -/
theorem C2_compare_distinct_fails (entropy : Nat) (p1 p2 : String)
    (h : p1 ≠ p2) :
    Compare (Encrypt entropy p1) p2 = .error .mismatch ∧
    loginBoundaryMap .mismatch = .invalidCredentials := by
  refine ⟨?_, rfl⟩
  have hk : bcryptKey entropy p1 ≠ bcryptKey entropy p2 :=
    fun he => h (bcryptKey_inj entropy he)
  simp [Compare, Encrypt, compareHashAndPassword, generateFromPassword, hk]

/-- Witness for C2 at concrete distinct passwords. -/
theorem C2_witness :
    Compare (Encrypt 7 "correct-horse") "battery-staple" = .error .mismatch ∧
    loginBoundaryMap .mismatch = .invalidCredentials :=
  C2_compare_distinct_fails 7 "correct-horse" "battery-staple" (by decide)

/-- C8: hashing is salted and non-deterministic: two `Encrypt` calls on the
same plaintext with distinct entropy draws return different digests, yet
`Compare` accepts the plaintext against both. -/
theorem C8_salted_nondeterministic (p : String) (e1 e2 : Nat) (h : e1 ≠ e2) :
    Encrypt e1 p ≠ Encrypt e2 p ∧
    Compare (Encrypt e1 p) p = .ok () ∧
    Compare (Encrypt e2 p) p = .ok () := by
  refine ⟨?_, compareHash_roundtrip e1 p, compareHash_roundtrip e2 p⟩
  intro he
  exact h (congrArg BcryptDigest.salt he)

/-- Witness for C8 at a concrete password and two entropy draws. -/
theorem C8_witness :
    Encrypt 0 "hunter2" ≠ Encrypt 1 "hunter2" ∧
    Compare (Encrypt 0 "hunter2") "hunter2" = .ok () ∧
    Compare (Encrypt 1 "hunter2") "hunter2" = .ok () :=
  C8_salted_nondeterministic "hunter2" 0 1 (by decide)

/-- `encodeCode` always emits exactly `len` digits. -/
theorem encodeCode_length (chars : List Char) :
    ∀ (len n : Nat), (encodeCode chars len n).length = len
  | 0, _ => rfl
  | len + 1, n => by
    simp [encodeCode, encodeCode_length chars len]

/-- Every digit emitted by `encodeCode` is drawn from the alphabet. -/
theorem encodeCode_mem (chars : List Char) (hb : 0 < chars.length) :
    ∀ (len n : Nat) (c : Char), c ∈ encodeCode chars len n → c ∈ chars := by
  intro len
  induction len with
  | zero => intro n c hc; simp [encodeCode] at hc
  | succ len ih =>
    intro n c hc
    simp only [encodeCode, List.mem_cons] at hc
    rcases hc with hc | hc
    · have hlt : n % chars.length < chars.length := Nat.mod_lt _ hb
      rw [hc, List.getD_eq_getElem chars ' ' hlt]
      exact List.getElem_mem hlt
    · exact ih (n / chars.length) c hc

/-- On counters below `|chars| ^ len`, `encodeCode` is injective whenever
the alphabet has no duplicate characters. -/
theorem encodeCode_inj (chars : List Char) (hnd : chars.Nodup)
    (hb : 0 < chars.length) :
    ∀ (len n1 n2 : Nat), n1 < chars.length ^ len → n2 < chars.length ^ len →
      encodeCode chars len n1 = encodeCode chars len n2 → n1 = n2 := by
  intro len
  induction len with
  | zero =>
    intro n1 n2 h1 h2 _
    simp only [pow_zero, Nat.lt_one_iff] at h1 h2
    omega
  | succ len ih =>
    intro n1 n2 h1 h2 heq
    simp only [encodeCode, List.cons.injEq] at heq
    obtain ⟨hhead, htail⟩ := heq
    have hm1 : n1 % chars.length < chars.length := Nat.mod_lt _ hb
    have hm2 : n2 % chars.length < chars.length := Nat.mod_lt _ hb
    rw [List.getD_eq_getElem chars ' ' hm1,
        List.getD_eq_getElem chars ' ' hm2] at hhead
    have hmod : n1 % chars.length = n2 % chars.length :=
      (List.Nodup.getElem_inj_iff hnd).mp hhead
    have hd1 : n1 / chars.length < chars.length ^ len := by
      rw [Nat.div_lt_iff_lt_mul hb]
      calc n1 < chars.length ^ (len + 1) := h1
        _ = chars.length ^ len * chars.length := by rw [pow_succ]
    have hd2 : n2 / chars.length < chars.length ^ len := by
      rw [Nat.div_lt_iff_lt_mul hb]
      calc n2 < chars.length ^ (len + 1) := h2
        _ = chars.length ^ len * chars.length := by rw [pow_succ]
    have hdiv := ih (n1 / chars.length) (n2 / chars.length) hd1 hd2 htail
    calc n1 = chars.length * (n1 / chars.length) + n1 % chars.length :=
          (Nat.div_add_mod n1 chars.length).symm
      _ = chars.length * (n2 / chars.length) + n2 % chars.length := by
          rw [hdiv, hmod]
      _ = n2 := Nat.div_add_mod n2 chars.length

/-- Mixing with the salt and reducing mod the code space is injective on
counters within the code space. -/
theorem mixMod_inj {space : Nat} (salt : Nat) {c1 c2 : Nat}
    (h1 : c1 < space) (h2 : c2 < space)
    (he : (c1 + salt) % space = (c2 + salt) % space) : c1 = c2 := by
  have h3 : c1 ≡ c2 [MOD space] := Nat.ModEq.add_right_cancel' salt he
  have h4 : c1 % space = c2 % space := h3
  rwa [Nat.mod_eq_of_lt h1, Nat.mod_eq_of_lt h2] at h4

/-- The alphabet has no duplicate characters. -/
theorem defaultABC_nodup : defaultABC.data.Nodup := by decide

/-- The alphabet holds 62 characters. -/
theorem defaultABC_len : defaultABC.data.length = 62 := by decide

/-- Distinct counters within the 6-character code space give distinct
identifiers for the same resource type and salt. -/
theorem ResourceID.New_inj (rid : ResourceID) (salt : Nat) {c1 c2 : Nat}
    (h1 : c1 < 62 ^ 6) (h2 : c2 < 62 ^ 6) (hne : c1 ≠ c2) :
    rid.New salt c1 ≠ rid.New salt c2 := by
  intro he
  unfold ResourceID.New NewCode at he
  have hdata := congrArg String.data he
  simp only [String.data_append] at hdata
  have hlists := List.append_cancel_left hdata
  rw [defaultABC_len] at hlists
  have hsp : (0:Nat) < 62 ^ 6 := by norm_num
  have hb62 : (0:Nat) < 62 := by norm_num
  have hnd := defaultABC_nodup
  have hmix :=
    encodeCode_inj defaultABC.data hnd (by rw [defaultABC_len]; norm_num) 6
      ((c1 + salt) % 62 ^ 6) ((c2 + salt) % 62 ^ 6)
      (by rw [defaultABC_len]; exact Nat.mod_lt _ hsp)
      (by rw [defaultABC_len]; exact Nat.mod_lt _ hsp)
      hlists
  exact hne (mixMod_inj salt h1 h2 hmix)

/-- C3: the identifier generator is deterministic for a fixed salt —
repeated calls with the same `(type, counter, salt)` yield the same string
— and for the same type and salt, distinct counters within the code space
give distinct identifiers; in particular counters 42 and 43 always
differ. -/
theorem C3_newID_deterministic_distinct (salt c1 c2 : Nat) :
    ResourceID.New UserID salt c1 = ResourceID.New UserID salt c1 ∧
    (c1 < 62 ^ 6 → c2 < 62 ^ 6 → c1 ≠ c2 →
      ResourceID.New UserID salt c1 ≠ ResourceID.New UserID salt c2) ∧
    ResourceID.New UserID salt 42 ≠ ResourceID.New UserID salt 43 := by
  refine ⟨rfl, fun h1 h2 hne => ResourceID.New_inj UserID salt h1 h2 hne, ?_⟩
  exact ResourceID.New_inj UserID salt (by norm_num) (by norm_num) (by norm_num)

/-- Witness for C3 at a concrete salt and the counters 42 and 43. -/
theorem C3_witness :
    ResourceID.New UserID 0 42 ≠ ResourceID.New UserID 0 43 :=
  (C3_newID_deterministic_distinct 0 42 43).2.1 (by norm_num) (by norm_num)
    (by norm_num)

/-- Every character of the alphabet is alphanumeric. -/
theorem defaultABC_alphanum : ∀ c ∈ defaultABC.data, c.isAlphanum = true := by
  decide

/-- C4: every identifier generated for the user resource has the shape
`user-<code>` where the code is exactly 6 characters drawn from the fixed
alphanumeric alphabet — it matches `^user-[A-Za-z0-9]{6}$`. -/
theorem C4_userID_shape (salt counter : Nat) :
    ∃ code : String,
      ResourceID.New UserID salt counter = "user-" ++ code ∧
      code.length = 6 ∧
      (∀ c ∈ code.data, c ∈ defaultABC.data) ∧
      code.data.all (fun c => c.isAlphanum) = true := by
  refine ⟨NewCode counter defaultABC.data 6 salt, rfl, ?_, ?_, ?_⟩
  · exact encodeCode_length defaultABC.data 6 _
  · intro c hc
    exact encodeCode_mem defaultABC.data (by rw [defaultABC_len]; norm_num) 6 _ c hc
  · rw [List.all_eq_true]
    intro c hc
    exact defaultABC_alphanum c
      (encodeCode_mem defaultABC.data (by rw [defaultABC_len]; norm_num) 6 _ c hc)

/-- Parsing a just-issued token reduces to the expiry check: the signature
always verifies, so the outcome depends only on whether the check time is
before the expiry. -/
theorem parseToken_issueToken (cfg : TokenConfig) (subject : String)
    (tIssue tCheck : Nat) :
    parseToken cfg tCheck (issueToken cfg subject tIssue).1 =
      if tCheck < tIssue + cfg.expiration then
        .ok { subject := subject, issuedAt := tIssue,
              expiry := tIssue + cfg.expiration }
      else .error .expired := by
  simp [issueToken, parseToken]

/-- C5: the default token lifetime configured at start-up is exactly 2
hours, `Config.NewServer` hands exactly the configured expiration to
`token.Init`, and with the default lifetime a token parses successfully
1h59m59s after issuance and fails with `TokenExpired` 2h00m01s after
issuance. -/
theorem C5_default_lifetime_two_hours (subject : String) (now : Nat) :
    NewServerOptions.Expiration = 2 * nsPerHour ∧
    (∀ o : ServerOptions, o.Config.tokenInit.expiration = o.Expiration) ∧
    ∀ tc : TokenConfig, tc.expiration = NewServerOptions.Expiration →
      parseToken tc (now + 7199 * nsPerSecond) (issueToken tc subject now).1 =
        .ok { subject := subject, issuedAt := now,
              expiry := now + 2 * nsPerHour } ∧
      parseToken tc (now + 7201 * nsPerSecond) (issueToken tc subject now).1 =
        .error .expired := by
  refine ⟨rfl, fun o => rfl, ?_⟩
  intro tc htc
  have hexp : tc.expiration = 7200 * nsPerSecond := by
    rw [htc]
    show 2 * nsPerHour = 7200 * nsPerSecond
    rw [nsPerHour]; ring
  have h2h : (2 * nsPerHour : Nat) = 7200 * nsPerSecond := by
    rw [nsPerHour]; ring
  constructor
  · rw [parseToken_issueToken,
      if_pos (by rw [hexp]; simp only [nsPerSecond]; omega), hexp, h2h]
  · rw [parseToken_issueToken,
      if_neg (by rw [hexp]; simp only [nsPerSecond]; omega)]

/-- Witness for C5 at a concrete configuration, subject and clock. -/
theorem C5_witness :
    parseToken ⟨"secret-key", XUserID, 2 * nsPerHour⟩ (7199 * nsPerSecond)
        (issueToken ⟨"secret-key", XUserID, 2 * nsPerHour⟩ "user-abc123" 0).1 =
      .ok { subject := "user-abc123", issuedAt := 0, expiry := 2 * nsPerHour } ∧
    parseToken ⟨"secret-key", XUserID, 2 * nsPerHour⟩ (7201 * nsPerSecond)
        (issueToken ⟨"secret-key", XUserID, 2 * nsPerHour⟩ "user-abc123" 0).1 =
      .error .expired := by
  have h := (C5_default_lifetime_two_hours "user-abc123" 0).2.2
    ⟨"secret-key", XUserID, 2 * nsPerHour⟩ rfl
  simpa using h

/-- C6: `parse` reports `MalformedToken` exactly on structurally malformed
tokens; on a well-formed token a bad signature is reported as
`InvalidSignature` regardless of expiry; `Expired` arises only when the
structure and the signature are both valid and the expiry has elapsed — the
three failures are mutually exclusive and checked in that order. -/
theorem C6_parse_failure_order (cfg : TokenConfig) (now : Nat)
    (t : PresentedToken) :
    (parseToken cfg now t = .error .malformedToken ↔ t = .malformed) ∧
    (∀ claims sig, t = .wellFormed claims sig →
      sig ≠ signClaims cfg.key claims →
      parseToken cfg now t = .error .invalidSignature) ∧
    (parseToken cfg now t = .error .invalidSignature →
      ∃ claims sig, t = .wellFormed claims sig ∧
        sig ≠ signClaims cfg.key claims) ∧
    (parseToken cfg now t = .error .expired →
      ∃ claims sig, t = .wellFormed claims sig ∧
        sig = signClaims cfg.key claims ∧ ¬ now < claims.expiry) := by
  cases t with
  | malformed =>
    refine ⟨by simp [parseToken], ?_, ?_, ?_⟩
    · intro claims sig' h
      exact absurd h (by simp)
    · intro h
      simp [parseToken] at h
    · intro h
      simp [parseToken] at h
  | wellFormed cl sig =>
    by_cases hsig : sig = signClaims cfg.key cl
    · by_cases hexp : now < cl.expiry
      · refine ⟨by simp [parseToken, hsig, hexp], ?_, ?_, ?_⟩
        · intro claims sig' heq hne
          injection heq with hc hs
          subst hc; subst hs
          exact absurd hsig hne
        · intro h
          simp [parseToken, hsig, hexp] at h
        · intro h
          simp [parseToken, hsig, hexp] at h
      · refine ⟨by simp [parseToken, hsig, hexp], ?_, ?_, ?_⟩
        · intro claims sig' heq hne
          injection heq with hc hs
          subst hc; subst hs
          exact absurd hsig hne
        · intro h
          simp [parseToken, hsig, hexp] at h
        · intro _
          exact ⟨cl, sig, rfl, hsig, hexp⟩
    · refine ⟨by simp [parseToken, hsig], ?_, ?_, ?_⟩
      · intro claims sig' heq hne
        injection heq with hc hs
        subst hc; subst hs
        simp [parseToken, hsig]
      · intro _
        exact ⟨cl, sig, rfl, hsig⟩
      · intro h
        simp [parseToken, hsig] at h

/-- Witness for C6: a concrete well-formed token with a wrong signature is
rejected as `InvalidSignature`. -/
theorem C6_witness :
    parseToken ⟨"k", "x-user-id", 0⟩ 0 (.wellFormed ⟨"u", 0, 0⟩ 0) =
      .error .invalidSignature :=
  (C6_parse_failure_order ⟨"k", "x-user-id", 0⟩ 0
    (.wellFormed ⟨"u", 0, 0⟩ 0)).2.1 ⟨"u", 0, 0⟩ 0 rfl (by decide)

/-- C7: the registered `/refresh-token` route carries the Authn middleware
ahead of the handler, and on any parse failure the pipeline answers
Unauthorized without invoking the refresh logic — refresh only ever
observes a currently valid token. -/
theorem C7_refresh_gated :
    ((installRESTAPI.filter
        (fun r => r.handler == HandlerTag.refreshToken)).map Route.middlewares
      = [[.recovery, .noCache, .cors, .requestID, .authn]]) ∧
    ∀ (cfg : TokenConfig) (now : Nat) (t : PresentedToken) (e : ParseError),
      parseToken cfg now t = .error e →
      runRefreshRoute cfg now t =
        { unauthorized := true, refreshInvoked := false, newToken := none } := by
  refine ⟨by decide, ?_⟩
  intro cfg now t e he
  simp [runRefreshRoute, authnGate, he]

/-- Witness for C7: a malformed token is turned away with Unauthorized and
the refresh handler does not run. -/
theorem C7_witness :
    runRefreshRoute ⟨"secret", XUserID, 2 * nsPerHour⟩ 0 .malformed =
      { unauthorized := true, refreshInvoked := false, newToken := none } :=
  C7_refresh_gated.2 ⟨"secret", XUserID, 2 * nsPerHour⟩ 0 .malformed
    .malformedToken rfl

/-- Peeling an early-return error check: if the whole chain succeeded, the
remainder after this check succeeded. -/
theorem ite_error_ok {c : Prop} [Decidable c] {msg : String}
    {rest : Except String Unit}
    (h : (if c then Except.error msg else rest) = .ok ()) : rest = .ok () := by
  by_cases hc : c
  · rw [if_pos hc] at h
    exact Except.noConfusion h
  · rwa [if_neg hc] at h

/-- C9: the default `ServerOptions` leave the JWT signing key empty,
`Validate` rejects every configuration whose `JWTKey` is shorter than 6
characters, and the defaults fail validation with exactly the JWTKey
error — a process started with them cannot start serving. -/
theorem C9_default_jwtkey_rejected :
    NewServerOptions.JWTKey = "" ∧
    (∀ o : ServerOptions, o.JWTKey.length < 6 → o.Validate ≠ .ok ()) ∧
    NewServerOptions.Validate =
      .error "JWTKey must be at least 6 characters long" := by
  refine ⟨rfl, ?_, by rfl⟩
  intro o h hok
  unfold ServerOptions.Validate at hok
  iterate 14 replace hok := ite_error_ok hok
  by_cases hc : o.JWTKey.length < 6
  · rw [if_pos hc] at hok
    exact Except.noConfusion hok
  · exact hc h

/-- Witness for C9: the default options do not validate. -/
theorem C9_witness : ServerOptions.Validate NewServerOptions ≠ .ok () :=
  C9_default_jwtkey_rejected.2.1 NewServerOptions (by decide)

/-- C10: among the user-facing routes (every registered route except the
operational `/healthz` probe), exactly two carry no Authn middleware —
`POST /login` and `POST /v1/users` — and every change-password, update,
delete, get and list user route and every post route carries Authn. -/
theorem C10_route_table_gating :
    ((installRESTAPI.filter
        (fun r => !(r.handler == HandlerTag.healthz)
          && !(r.middlewares.contains Middleware.authn))).map
      (fun r => (r.method, r.path, r.handler))
      = [(.POST, "/login", .login), (.POST, "/v1/users", .createUser)]) ∧
    ∀ r ∈ installRESTAPI,
      r.handler ∈ ([.changePassword, .updateUser, .deleteUser, .getUser,
        .listUser, .createPost, .updatePost, .deletePost, .getPost,
        .listPost] : List HandlerTag) →
      r.middlewares.contains Middleware.authn = true := by
  constructor
  · decide
  · decide

/-- Witness for C10: the change-password route is Authn-gated. -/
theorem C10_witness :
    (Route.mk .PUT "/v1/users/:userID/change-password"
        [.recovery, .noCache, .cors, .requestID, .authn]
        .changePassword).middlewares.contains Middleware.authn = true :=
  C10_route_table_gating.2
    (Route.mk .PUT "/v1/users/:userID/change-password"
      [.recovery, .noCache, .cors, .requestID, .authn] .changePassword)
    (by decide) (by decide)

end FastGo
